import Mathlib

/-!
# LightBnB data-access layer: a shallow embedding

This file embeds the LightBnB repository's data-access module
(`LightBnB_WebApp/db/database.js`, the refactored `database.js`, and the
DDL in `01_schema.sql`) into Lean 4 and proves the specification's claims
about it.

Modelling conventions:
* JavaScript strings are `String`; JavaScript numbers that the code treats
  as integral (ids, prices, ratings, limits) are `Int`.
* An optional field of an options object is an `Option` value; JavaScript
  truthiness (`if (options.x)`) is `jsTruthyStr` / `jsTruthyNum`
  (`undefined`, the empty string and `0` are falsy).
* A positional query parameter is a `Value` (string or number), the pair
  `String × List Value` is the (query text, parameter list) handed to
  `pool.query`.
* A settled driver promise is an `Except String (List Row)`:
  `Except.error msg` is a rejection with message `msg`, `Except.ok rows`
  a fulfilled result whose `rows` field is `rows`.  The `.then/.catch`
  chain of each function is a total Lean function on that type; its result
  is a `JsVal` together with the list of `console.error` lines produced.
-/

namespace LightBnB

/-- A positional SQL parameter value pushed onto `queryParams`. -/
inductive Value where
  | str (s : String)
  | num (n : Int)
deriving DecidableEq, Repr

/-- A result row, as the abstract unit the `.then` callbacks shuffle
around; none of the embedded code inspects row contents. -/
structure Row where
  fields : List (String × Value)
deriving DecidableEq, Repr

/-- A JavaScript value as it appears in the resolutions of the exported
functions: `undefined`, `null`, a single row object, or an array of rows. -/
inductive JsVal where
  | undef
  | null
  | obj (r : Row)
  | arr (rs : List Row)
deriving DecidableEq, Repr

/-- JavaScript truthiness of a possibly-absent string
(`undefined` and `""` are falsy). -/
def jsTruthyStr : Option String → Bool
  | none => false
  | some s => s ≠ ""

/-- JavaScript truthiness of a possibly-absent number
(`undefined` and `0` are falsy). -/
def jsTruthyNum : Option Int → Bool
  | none => false
  | some n => n ≠ 0

/-- The `options` object accepted by `getAllProperties`; each field is
absent (`none`) or present with a value. -/
structure Options where
  city : Option String := none
  owner_id : Option Int := none
  minimum_price_per_night : Option Int := none
  maximum_price_per_night : Option Int := none
  minimum_rating : Option Int := none
deriving DecidableEq, Repr

/-- The fixed `SELECT ... LEFT JOIN ...` head of `getAllProperties`
(database.js lines 84-88), exactly the template literal's contents. -/
def baseSelect : String :=
  "\n    SELECT properties.*, AVG(property_reviews.rating) as average_rating\n    FROM properties\n    LEFT JOIN property_reviews ON properties.id = property_reviews.property_id\n  "

/-- The `if (options.city)` block of `getAllProperties` (database.js lines
92-95): when the field is truthy, push the `%`-wrapped city as a parameter
and then the `LIKE` predicate whose placeholder number is the parameter
list's length after the push; `st` is (`whereClauses`, `queryParams`). -/
def cityStep (options : Options) (st : List String × List Value) :
    List String × List Value :=
  match options.city with
  | some s =>
    if s ≠ "" then
      let ps := st.2 ++ [Value.str ("%" ++ s ++ "%")]
      (st.1 ++ ["city LIKE $" ++ toString ps.length], ps)
    else st
  | none => st

/-- The `if (options.owner_id)` block (database.js lines 97-100). -/
def ownerStep (options : Options) (st : List String × List Value) :
    List String × List Value :=
  match options.owner_id with
  | some n =>
    if n ≠ 0 then
      let ps := st.2 ++ [Value.num n]
      (st.1 ++ ["owner_id = $" ++ toString ps.length], ps)
    else st
  | none => st

/-- The `if (options.minimum_price_per_night)` block (database.js lines
102-105); the caller-side price is multiplied by 100. -/
def minPriceStep (options : Options) (st : List String × List Value) :
    List String × List Value :=
  match options.minimum_price_per_night with
  | some n =>
    if n ≠ 0 then
      let ps := st.2 ++ [Value.num (n * 100)]
      (st.1 ++ ["cost_per_night >= $" ++ toString ps.length], ps)
    else st
  | none => st

/-- The `if (options.maximum_price_per_night)` block (database.js lines
107-110); the caller-side price is multiplied by 100. -/
def maxPriceStep (options : Options) (st : List String × List Value) :
    List String × List Value :=
  match options.maximum_price_per_night with
  | some n =>
    if n ≠ 0 then
      let ps := st.2 ++ [Value.num (n * 100)]
      (st.1 ++ ["cost_per_night <= $" ++ toString ps.length], ps)
    else st
  | none => st

/-- The `if (options.minimum_rating)` block (database.js lines 112-115). -/
def minRatingStep (options : Options) (st : List String × List Value) :
    List String × List Value :=
  match options.minimum_rating with
  | some n =>
    if n ≠ 0 then
      let ps := st.2 ++ [Value.num n]
      (st.1 ++ ["AVG(property_reviews.rating) >= $" ++ toString ps.length], ps)
    else st
  | none => st

/-- The sequential filter build of `getAllProperties` (database.js lines
83-115): starting from empty `whereClauses` and `queryParams`, run the five
`if (options.x)` blocks in source order.
Returns (`whereClauses`, `queryParams`). -/
def whereClausesAndParams (options : Options) : List String × List Value :=
  minRatingStep options
    (maxPriceStep options
      (minPriceStep options
        (ownerStep options
          (cityStep options ([], [])))))

/-- Full query assembly of `getAllProperties` (database.js lines 82-128):
the base select, the optional `WHERE` clause joining the present predicates
with `AND`, the limit pushed as the final parameter, and the trailing
`GROUP BY / ORDER BY / LIMIT $n` with `n` the final parameter count.
Returns (`queryString`, `queryParams`). -/
def getAllPropertiesQuery (options : Options) (limit : Int := 10) : String × List Value :=
  let (whereClauses, queryParams) := whereClausesAndParams options
  let queryString := baseSelect
  let queryString :=
    if whereClauses.length > 0 then
      queryString ++ "WHERE " ++ String.intercalate " AND " whereClauses ++ " "
    else queryString
  let queryParams := queryParams ++ [Value.num limit]
  let queryString :=
    queryString ++ "\n    GROUP BY properties.id\n    ORDER BY cost_per_night\n    LIMIT $" ++ toString queryParams.length ++ ";\n  "
  (queryString, queryParams)

/-- One optional filter of the property search, with its caller-supplied
value, in the spec's enumeration: city, owner, minimum price, maximum
price, minimum rating. -/
inductive Filt where
  | city (s : String)
  | owner (n : Int)
  | minPrice (n : Int)
  | maxPrice (n : Int)
  | minRating (n : Int)
deriving DecidableEq, Repr

/-- The one positional parameter a present filter contributes (the spec's
"append ... one positional parameter"): the city string wrapped in `%`
wildcards, prices converted to cents, owner id and rating verbatim. -/
def Filt.param : Filt → Value
  | .city s => .str ("%" ++ s ++ "%")
  | .owner n => .num n
  | .minPrice n => .num (n * 100)
  | .maxPrice n => .num (n * 100)
  | .minRating n => .num n

/-- The one SQL predicate a present filter contributes (the spec's
"append one SQL predicate"), given the 1-based placeholder number it must
carry. -/
def Filt.pred : Filt → Nat → String
  | .city _, i => "city LIKE $" ++ toString i
  | .owner _, i => "owner_id = $" ++ toString i
  | .minPrice _, i => "cost_per_night >= $" ++ toString i
  | .maxPrice _, i => "cost_per_night <= $" ++ toString i
  | .minRating _, i => "AVG(property_reviews.rating) >= $" ++ toString i

/-- The city filter when present (truthy), as a zero- or one-element list. -/
def cityPiece (options : Options) : List Filt :=
  match options.city with
  | some s => if s ≠ "" then [Filt.city s] else []
  | none => []

/-- The owner filter when present (truthy). -/
def ownerPiece (options : Options) : List Filt :=
  match options.owner_id with
  | some n => if n ≠ 0 then [Filt.owner n] else []
  | none => []

/-- The minimum-price filter when present (truthy). -/
def minPricePiece (options : Options) : List Filt :=
  match options.minimum_price_per_night with
  | some n => if n ≠ 0 then [Filt.minPrice n] else []
  | none => []

/-- The maximum-price filter when present (truthy). -/
def maxPricePiece (options : Options) : List Filt :=
  match options.maximum_price_per_night with
  | some n => if n ≠ 0 then [Filt.maxPrice n] else []
  | none => []

/-- The minimum-rating filter when present (truthy). -/
def minRatingPiece (options : Options) : List Filt :=
  match options.minimum_rating with
  | some n => if n ≠ 0 then [Filt.minRating n] else []
  | none => []

/-- The present optional filters of an options object, in the order the
source checks them; a falsy field (absent, empty string, zero) is not
present. -/
def presentFilters (options : Options) : List Filt :=
  cityPiece options ++ ownerPiece options ++ minPricePiece options
    ++ maxPricePiece options ++ minRatingPiece options

/-- Reference parameter list: one parameter per present filter, in order. -/
def renderParams (fs : List Filt) : List Value := fs.map Filt.param

/-- Reference predicate list: one predicate per present filter, the `i`-th
(1-based) carrying placeholder `$i`. -/
def renderPreds (fs : List Filt) : List String :=
  (List.enumFrom 1 fs).map (fun p => p.2.pred p.1)

/-- The shape of a filter: which of the five optional filters it is,
forgetting the caller-supplied value. -/
inductive FiltKind where
  | city
  | owner
  | minPrice
  | maxPrice
  | minRating
deriving DecidableEq, Repr

/-- The kind of a present filter. -/
def Filt.kind : Filt → FiltKind
  | .city _ => .city
  | .owner _ => .owner
  | .minPrice _ => .minPrice
  | .maxPrice _ => .maxPrice
  | .minRating _ => .minRating

/-- The predicate template of a filter kind: the predicate text depends
only on the kind and the placeholder number, never on the caller value. -/
def FiltKind.pred : FiltKind → Nat → String
  | .city, i => "city LIKE $" ++ toString i
  | .owner, i => "owner_id = $" ++ toString i
  | .minPrice, i => "cost_per_night >= $" ++ toString i
  | .maxPrice, i => "cost_per_night <= $" ++ toString i
  | .minRating, i => "AVG(property_reviews.rating) >= $" ++ toString i

/-- Abstract push of one present filter onto the builder state: one
parameter and one predicate, the predicate's placeholder number being the
parameter list's length after the push. -/
def pushFilt (st : List String × List Value) (f : Filt) :
    List String × List Value :=
  let ps := st.2 ++ [f.param]
  (st.1 ++ [f.pred ps.length], ps)

/-- An options object with every falsy optional field (`undefined`, `""`,
`0`) replaced by an absent one; the source's truthiness tests cannot tell
the two apart. -/
def canonicalOptions (o : Options) : Options where
  city := match o.city with | some s => if s = "" then none else some s | none => none
  owner_id := match o.owner_id with | some n => if n = 0 then none else some n | none => none
  minimum_price_per_night :=
    match o.minimum_price_per_night with
    | some n => if n = 0 then none else some n
    | none => none
  maximum_price_per_night :=
    match o.maximum_price_per_night with
    | some n => if n = 0 then none else some n
    | none => none
  minimum_rating :=
    match o.minimum_rating with | some n => if n = 0 then none else some n | none => none

/-- The truthiness pattern of an options object: which of the five
optional filters the source's `if (options.x)` tests accept. -/
def truthyPattern (o : Options) : Bool × Bool × Bool × Bool × Bool :=
  (jsTruthyStr o.city, jsTruthyNum o.owner_id,
   jsTruthyNum o.minimum_price_per_night,
   jsTruthyNum o.maximum_price_per_night,
   jsTruthyNum o.minimum_rating)

/-- The `user` object taken by `addUser` (database.js lines 59-66). -/
structure NewUser where
  name : String
  email : String
  password : String
deriving DecidableEq, Repr

/-- The `property` object taken by `addProperty` (database.js lines
143-173), with the fields the function reads. -/
structure NewProperty where
  owner_id : Int
  title : String
  description : String
  thumbnail_photo_url : String
  cover_photo_url : String
  cost_per_night : Int
  street : String
  city : String
  province : String
  post_code : String
  country : String
  parking_spaces : Int
  number_of_bathrooms : Int
  number_of_bedrooms : Int
deriving DecidableEq, Repr

/-- The fixed query text of `getUserWithEmail` (database.js lines 20-24),
identical in both revisions of the module. -/
def getUserWithEmailText : String :=
  "\n    SELECT *\n    FROM users\n    WHERE email = $1;\n  "

/-- The fixed query text of `getUserWithId` (database.js lines 40-44). -/
def getUserWithIdText : String :=
  "\n    SELECT *\n    FROM users\n    WHERE id = $1;\n  "

/-- The fixed query text of `addUser` (database.js lines 60-64). -/
def addUserText : String :=
  "\n    INSERT INTO users (name, email, password)\n    VALUES ($1, $2, $3)\n    RETURNING *;\n  "

/-- The fixed query text of `addProperty` (database.js lines 144-156). -/
def addPropertyText : String :=
  "\n    INSERT INTO properties (\n      owner_id, title, description, thumbnail_photo_url, cover_photo_url, \n      cost_per_night, street, city, province, post_code, country, \n      parking_spaces, number_of_bathrooms, number_of_bedrooms\n    )\n    VALUES (\n      $1, $2, $3, $4, $5, \n      $6, $7, $8, $9, $10, $11, \n      $12, $13, $14\n    )\n    RETURNING *;\n  "

/-- The fixed query text of `getAllReservations` (database.js lines
190-199). -/
def getAllReservationsText : String :=
  "\n    SELECT reservations.*, properties.*, AVG(property_reviews.rating) as average_rating\n    FROM reservations\n    JOIN properties ON reservations.property_id = properties.id\n    LEFT JOIN property_reviews ON properties.id = property_reviews.property_id\n    WHERE reservations.guest_id = $1\n    GROUP BY reservations.id, properties.id\n    ORDER BY reservations.start_date\n    LIMIT $2;\n  "

/-- The (query text, parameter list) pair `getUserWithEmail` hands to
`pool.query` (database.js line 26). -/
def getUserWithEmailQuery (email : String) : String × List Value :=
  (getUserWithEmailText, [Value.str email])

/-- The (query text, parameter list) pair of `getUserWithId`
(database.js line 46). -/
def getUserWithIdQuery (id : Int) : String × List Value :=
  (getUserWithIdText, [Value.num id])

/-- The (query text, parameter list) pair of `addUser`
(database.js lines 66-68). -/
def addUserQuery (user : NewUser) : String × List Value :=
  (addUserText, [Value.str user.name, Value.str user.email, Value.str user.password])

/-- The column list of `addProperty`'s `INSERT INTO properties (...)`,
in placeholder order `$1`..`$14` (database.js lines 145-149). -/
def addPropertyColumns : List String :=
  ["owner_id", "title", "description", "thumbnail_photo_url", "cover_photo_url",
   "cost_per_night", "street", "city", "province", "post_code", "country",
   "parking_spaces", "number_of_bathrooms", "number_of_bedrooms"]

/-- The parameter list of `addProperty` (database.js lines 158-173); the
sixth entry is `property.cost_per_night * 100` ("Convert to cents"). -/
def addPropertyParams (property : NewProperty) : List Value :=
  [Value.num property.owner_id,
   Value.str property.title,
   Value.str property.description,
   Value.str property.thumbnail_photo_url,
   Value.str property.cover_photo_url,
   Value.num (property.cost_per_night * 100),
   Value.str property.street,
   Value.str property.city,
   Value.str property.province,
   Value.str property.post_code,
   Value.str property.country,
   Value.num property.parking_spaces,
   Value.num property.number_of_bathrooms,
   Value.num property.number_of_bedrooms]

/-- The (query text, parameter list) pair of `addProperty`
(database.js line 175). -/
def addPropertyQuery (property : NewProperty) : String × List Value :=
  (addPropertyText, addPropertyParams property)

/-- The (query text, parameter list) pair of `getAllReservations`
(database.js lines 201-203). -/
def getAllReservationsQuery (guest_id : Int) (limit : Int := 10) :
    String × List Value :=
  (getAllReservationsText, [Value.num guest_id, Value.num limit])

/-- JavaScript `rows[0]`: the first element of the result's `rows` array,
or `undefined` when the array is empty. -/
def index0 (rows : List Row) : JsVal :=
  match rows with
  | [] => .undef
  | r :: _ => .obj r

/-- JavaScript `a || b` on the values these pipelines produce:
`undefined` and `null` are falsy and select the right operand; an object
or an array is truthy and is returned unchanged. -/
def jsOr (a b : JsVal) : JsVal :=
  match a with
  | .undef => b
  | .null => b
  | .obj r => .obj r
  | .arr rs => .arr rs

/-- The `.then/.catch` chain of `getUserWithEmail` (database.js lines
26-31), as a function of the settled driver promise: on fulfilment,
`result.rows[0] || null`; on rejection, log and resolve `null`.
Returns (resolution, `console.error` lines). -/
def getUserWithEmailSettle (outcome : Except String (List Row)) :
    JsVal × List String :=
  match outcome with
  | .ok rows => (jsOr (index0 rows) .null, [])
  | .error msg => (.null, ["Error in getUserWithEmail: " ++ msg])

/-- The `.then/.catch` chain of `getUserWithId` (database.js lines 46-51). -/
def getUserWithIdSettle (outcome : Except String (List Row)) :
    JsVal × List String :=
  match outcome with
  | .ok rows => (jsOr (index0 rows) .null, [])
  | .error msg => (.null, ["Error in getUserWithId: " ++ msg])

/-- The `.then/.catch` chain of `addUser` (database.js lines 68-73):
on fulfilment `result.rows[0]` (no `|| null`); on rejection, log and
resolve `null`. -/
def addUserSettle (outcome : Except String (List Row)) :
    JsVal × List String :=
  match outcome with
  | .ok rows => (index0 rows, [])
  | .error msg => (.null, ["Error in addUser: " ++ msg])

/-- The `.then/.catch` chain of `addProperty` (database.js lines 175-180). -/
def addPropertySettle (outcome : Except String (List Row)) :
    JsVal × List String :=
  match outcome with
  | .ok rows => (index0 rows, [])
  | .error msg => (.null, ["Error in addProperty: " ++ msg])

/-- The `.then/.catch` chain of `getAllProperties` (database.js lines
130-135): on fulfilment `res.rows`; on rejection, log and resolve `[]`. -/
def getAllPropertiesSettle (outcome : Except String (List Row)) :
    JsVal × List String :=
  match outcome with
  | .ok rows => (.arr rows, [])
  | .error msg => (.arr [], ["Error in getAllProperties: " ++ msg])

/-- The `.then/.catch` chain of `getAllReservations` (database.js lines
203-208). -/
def getAllReservationsSettle (outcome : Except String (List Row)) :
    JsVal × List String :=
  match outcome with
  | .ok rows => (.arr rows, [])
  | .error msg => (.arr [], ["Error in getAllReservations: " ++ msg])

/-- A column type as declared in `01_schema.sql`. -/
inductive ColType where
  | serial
  | varchar (n : Nat)
  | colText
  | integer
  | numeric (precision scale : Nat)
  | timestamp
  | date
deriving DecidableEq, Repr

/-- The `users` table of `01_schema.sql` (lines 7-13): column names and
declared types, in declaration order. -/
def usersSchemaCols : List (String × ColType) :=
  [("id", .serial), ("name", .varchar 255), ("email", .varchar 255),
   ("password", .varchar 255), ("created_at", .timestamp)]

/-- The `properties` table of `01_schema.sql` (lines 16-30); its monetary
column is `price_per_night NUMERIC(10, 2)` and it declares no
`cost_per_night` column. -/
def propertiesSchemaCols : List (String × ColType) :=
  [("id", .serial), ("title", .varchar 255), ("description", .colText),
   ("owner_id", .integer), ("price_per_night", .numeric 10 2),
   ("parking_spaces", .integer), ("number_of_bathrooms", .integer),
   ("number_of_bedrooms", .integer), ("country", .varchar 100),
   ("city", .varchar 100), ("street", .varchar 255),
   ("postal_code", .varchar 20), ("created_at", .timestamp)]

/-- The `reservations` table of `01_schema.sql` (lines 33-41). -/
def reservationsSchemaCols : List (String × ColType) :=
  [("id", .serial), ("start_date", .date), ("end_date", .date),
   ("property_id", .integer), ("guest_id", .integer),
   ("total_cost", .numeric 10 2), ("created_at", .timestamp)]

/-- The uniform-monetary-representation property the spec claim asserts,
stated over the embedded boundary operations: a single unit conversion
`conv` from caller-side currency units to the stored representation is
used by the minimum-price filter, the maximum-price filter and
`addProperty`'s `cost_per_night` parameter, and the `cost_per_night`
column those operations target is declared in the schema's `properties`
table. -/
def uniformMoneyRepresentation : Prop :=
  ∃ conv : Int → Int,
    (∀ n, Filt.param (.minPrice n) = Value.num (conv n)) ∧
    (∀ n, Filt.param (.maxPrice n) = Value.num (conv n)) ∧
    (∀ p : NewProperty,
      (addPropertyParams p).get? 5 = some (Value.num (conv p.cost_per_night))) ∧
    List.lookup "cost_per_night" propertiesSchemaCols ≠ none

/-- A row of the `users` table (`01_schema.sql` lines 7-13); `created_at`
is omitted as no claim concerns it. -/
structure UserRow where
  id : Nat
  name : String
  email : String
  password : String
deriving DecidableEq, Repr

/-- A row of the `properties` table (`01_schema.sql` lines 16-30);
`owner_id` references `users(id)` with `ON DELETE CASCADE`. -/
structure PropertyRow where
  id : Nat
  title : String
  description : String
  owner_id : Nat
  price_per_night : Int
  parking_spaces : Int
  number_of_bathrooms : Int
  number_of_bedrooms : Int
  country : String
  city : String
  street : String
  postal_code : String
deriving DecidableEq, Repr

/-- A row of the `reservations` table (`01_schema.sql` lines 33-41);
`property_id` references `properties(id)` and `guest_id` references
`users(id)`, both `ON DELETE CASCADE`; dates are modelled as day numbers. -/
structure ReservationRow where
  id : Nat
  start_date : Nat
  end_date : Nat
  property_id : Nat
  guest_id : Nat
  total_cost : Int
deriving DecidableEq, Repr

/-- A state of the relational store: the three tables of `01_schema.sql`. -/
structure Store where
  users : List UserRow
  properties : List PropertyRow
  reservations : List ReservationRow
deriving DecidableEq, Repr

/-- Referential integrity as enforced by the schema's foreign keys: every
`properties.owner_id` references an existing user, every
`reservations.property_id` an existing property and every
`reservations.guest_id` an existing user. -/
def Integrity (s : Store) : Prop :=
  (∀ p ∈ s.properties, ∃ u ∈ s.users, u.id = p.owner_id) ∧
  (∀ r ∈ s.reservations,
    (∃ p ∈ s.properties, p.id = r.property_id) ∧
    (∃ u ∈ s.users, u.id = r.guest_id))

/-- `DELETE FROM users WHERE id = uid` under the schema's
`ON DELETE CASCADE` clauses: the user's properties are deleted with the
user, and a reservation is deleted when its guest is the user or its
property was owned by the user. -/
def deleteUser (s : Store) (uid : Nat) : Store where
  users := s.users.filter (fun u => u.id != uid)
  properties := s.properties.filter (fun p => p.owner_id != uid)
  reservations := s.reservations.filter (fun r =>
    r.guest_id != uid &&
      s.properties.all (fun p => p.id != r.property_id || p.owner_id != uid))

/-- `DELETE FROM properties WHERE id = pid` under `ON DELETE CASCADE`:
the property's reservations are deleted with it. -/
def deleteProperty (s : Store) (pid : Nat) : Store where
  users := s.users
  properties := s.properties.filter (fun p => p.id != pid)
  reservations := s.reservations.filter (fun r => r.property_id != pid)

/-- SQL `LIKE` pattern matching: `%` matches any sequence of characters,
`_` any single character, any other pattern character only itself. -/
def likeMatches : List Char → List Char → Bool
  | [], [] => true
  | [], _ :: _ => false
  | '%' :: ps, s =>
    likeMatches ps s ||
      (match s with
       | [] => false
       | _ :: s' => likeMatches ('%' :: ps) s')
  | '_' :: ps, s =>
    (match s with
     | [] => false
     | _ :: s' => likeMatches ps s')
  | c :: ps, s =>
    (match s with
     | [] => false
     | x :: s' => c == x && likeMatches ps s')
termination_by p s => (p.length, s.length)

theorem cityStep_eq_foldl (options : Options) (st : List String × List Value) :
    cityStep options st = List.foldl pushFilt st (cityPiece options) := by
  cases h : options.city with
  | none => simp [cityStep, cityPiece, h]
  | some s =>
    by_cases hs : s = "" <;>
      simp [cityStep, cityPiece, h, hs, pushFilt, Filt.param, Filt.pred]

theorem ownerStep_eq_foldl (options : Options) (st : List String × List Value) :
    ownerStep options st = List.foldl pushFilt st (ownerPiece options) := by
  cases h : options.owner_id with
  | none => simp [ownerStep, ownerPiece, h]
  | some n =>
    by_cases hn : n = 0 <;>
      simp [ownerStep, ownerPiece, h, hn, pushFilt, Filt.param, Filt.pred]

theorem minPriceStep_eq_foldl (options : Options) (st : List String × List Value) :
    minPriceStep options st = List.foldl pushFilt st (minPricePiece options) := by
  cases h : options.minimum_price_per_night with
  | none => simp [minPriceStep, minPricePiece, h]
  | some n =>
    by_cases hn : n = 0 <;>
      simp [minPriceStep, minPricePiece, h, hn, pushFilt, Filt.param, Filt.pred]

theorem maxPriceStep_eq_foldl (options : Options) (st : List String × List Value) :
    maxPriceStep options st = List.foldl pushFilt st (maxPricePiece options) := by
  cases h : options.maximum_price_per_night with
  | none => simp [maxPriceStep, maxPricePiece, h]
  | some n =>
    by_cases hn : n = 0 <;>
      simp [maxPriceStep, maxPricePiece, h, hn, pushFilt, Filt.param, Filt.pred]

theorem minRatingStep_eq_foldl (options : Options) (st : List String × List Value) :
    minRatingStep options st = List.foldl pushFilt st (minRatingPiece options) := by
  cases h : options.minimum_rating with
  | none => simp [minRatingStep, minRatingPiece, h]
  | some n =>
    by_cases hn : n = 0 <;>
      simp [minRatingStep, minRatingPiece, h, hn, pushFilt, Filt.param, Filt.pred]

theorem whereClausesAndParams_eq_foldl (options : Options) :
    whereClausesAndParams options =
      List.foldl pushFilt ([], []) (presentFilters options) := by
  simp [whereClausesAndParams, presentFilters, List.foldl_append,
    cityStep_eq_foldl, ownerStep_eq_foldl, minPriceStep_eq_foldl,
    maxPriceStep_eq_foldl, minRatingStep_eq_foldl]

theorem foldl_pushFilt_render (fs : List Filt) :
    ∀ (cls : List String) (ps : List Value),
      List.foldl pushFilt (cls, ps) fs =
        (cls ++ (List.enumFrom (ps.length + 1) fs).map (fun p => p.2.pred p.1),
         ps ++ fs.map Filt.param) := by
  induction fs with
  | nil => intro cls ps; simp
  | cons f fs ih =>
    intro cls ps
    simp only [List.foldl_cons, List.enumFrom, List.map_cons, List.map,
      pushFilt, ih]
    simp [List.append_assoc, Nat.add_comm, Nat.add_left_comm]

/-- The sequential five-branch build equals the reference rendering of the
present filters: one predicate and one parameter per present filter, the
`i`-th predicate carrying placeholder `$i`. -/
theorem whereClausesAndParams_render (options : Options) :
    whereClausesAndParams options =
      (renderPreds (presentFilters options),
       renderParams (presentFilters options)) := by
  rw [whereClausesAndParams_eq_foldl, foldl_pushFilt_render]
  simp [renderPreds, renderParams]


theorem renderPreds_length (fs : List Filt) :
    (renderPreds fs).length = fs.length := by
  simp [renderPreds]

theorem renderParams_length (fs : List Filt) :
    (renderParams fs).length = fs.length := by
  simp [renderParams]

theorem cityPiece_canonical (o : Options) :
    cityPiece (canonicalOptions o) = cityPiece o := by
  cases hc : o.city with
  | none => simp [cityPiece, canonicalOptions, hc]
  | some s => by_cases hs : s = "" <;> simp [cityPiece, canonicalOptions, hc, hs]

theorem ownerPiece_canonical (o : Options) :
    ownerPiece (canonicalOptions o) = ownerPiece o := by
  cases hc : o.owner_id with
  | none => simp [ownerPiece, canonicalOptions, hc]
  | some n => by_cases hn : n = 0 <;> simp [ownerPiece, canonicalOptions, hc, hn]

theorem minPricePiece_canonical (o : Options) :
    minPricePiece (canonicalOptions o) = minPricePiece o := by
  cases hc : o.minimum_price_per_night with
  | none => simp [minPricePiece, canonicalOptions, hc]
  | some n => by_cases hn : n = 0 <;> simp [minPricePiece, canonicalOptions, hc, hn]

theorem maxPricePiece_canonical (o : Options) :
    maxPricePiece (canonicalOptions o) = maxPricePiece o := by
  cases hc : o.maximum_price_per_night with
  | none => simp [maxPricePiece, canonicalOptions, hc]
  | some n => by_cases hn : n = 0 <;> simp [maxPricePiece, canonicalOptions, hc, hn]

theorem minRatingPiece_canonical (o : Options) :
    minRatingPiece (canonicalOptions o) = minRatingPiece o := by
  cases hc : o.minimum_rating with
  | none => simp [minRatingPiece, canonicalOptions, hc]
  | some n => by_cases hn : n = 0 <;> simp [minRatingPiece, canonicalOptions, hc, hn]

theorem presentFilters_canonical (o : Options) :
    presentFilters (canonicalOptions o) = presentFilters o := by
  simp [presentFilters, cityPiece_canonical, ownerPiece_canonical,
    minPricePiece_canonical, maxPricePiece_canonical, minRatingPiece_canonical]

theorem cityPiece_nil (o : Options) (h : jsTruthyStr o.city = false) :
    cityPiece o = [] := by
  cases hc : o.city with
  | none => simp [cityPiece, hc]
  | some s => rw [hc] at h; simp [jsTruthyStr] at h; simp [cityPiece, hc, h]

theorem ownerPiece_nil (o : Options) (h : jsTruthyNum o.owner_id = false) :
    ownerPiece o = [] := by
  cases hc : o.owner_id with
  | none => simp [ownerPiece, hc]
  | some n => rw [hc] at h; simp [jsTruthyNum] at h; simp [ownerPiece, hc, h]

theorem minPricePiece_nil (o : Options)
    (h : jsTruthyNum o.minimum_price_per_night = false) :
    minPricePiece o = [] := by
  cases hc : o.minimum_price_per_night with
  | none => simp [minPricePiece, hc]
  | some n => rw [hc] at h; simp [jsTruthyNum] at h; simp [minPricePiece, hc, h]

theorem maxPricePiece_nil (o : Options)
    (h : jsTruthyNum o.maximum_price_per_night = false) :
    maxPricePiece o = [] := by
  cases hc : o.maximum_price_per_night with
  | none => simp [maxPricePiece, hc]
  | some n => rw [hc] at h; simp [jsTruthyNum] at h; simp [maxPricePiece, hc, h]

theorem minRatingPiece_nil (o : Options)
    (h : jsTruthyNum o.minimum_rating = false) :
    minRatingPiece o = [] := by
  cases hc : o.minimum_rating with
  | none => simp [minRatingPiece, hc]
  | some n => rw [hc] at h; simp [jsTruthyNum] at h; simp [minRatingPiece, hc, h]

theorem presentFilters_nil_of_falsy (o : Options)
    (h1 : jsTruthyStr o.city = false) (h2 : jsTruthyNum o.owner_id = false)
    (h3 : jsTruthyNum o.minimum_price_per_night = false)
    (h4 : jsTruthyNum o.maximum_price_per_night = false)
    (h5 : jsTruthyNum o.minimum_rating = false) :
    presentFilters o = [] := by
  simp [presentFilters, cityPiece_nil o h1, ownerPiece_nil o h2,
    minPricePiece_nil o h3, maxPricePiece_nil o h4, minRatingPiece_nil o h5]



theorem Filt.pred_eq_kind (f : Filt) (i : Nat) : f.pred i = f.kind.pred i := by
  cases f <;> rfl

theorem enumFrom_map_pred_congr (fs : List Filt) :
    ∀ (gs : List Filt), fs.map Filt.kind = gs.map Filt.kind →
      ∀ n, (List.enumFrom n fs).map (fun p => p.2.pred p.1)
        = (List.enumFrom n gs).map (fun p => p.2.pred p.1) := by
  induction fs with
  | nil =>
    intro gs h n
    cases gs with
    | nil => rfl
    | cons g gs => simp at h
  | cons f fs ih =>
    intro gs h n
    cases gs with
    | nil => simp at h
    | cons g gs =>
      simp only [List.map_cons, List.cons.injEq] at h
      have h1 : f.pred n = g.pred n := by
        rw [Filt.pred_eq_kind, Filt.pred_eq_kind, h.1]
      simp only [List.enumFrom, List.map_cons]
      rw [h1, ih gs h.2 (n + 1)]

theorem renderPreds_congr (fs gs : List Filt)
    (h : fs.map Filt.kind = gs.map Filt.kind) :
    renderPreds fs = renderPreds gs := by
  simpa [renderPreds] using enumFrom_map_pred_congr fs gs h 1

theorem cityPiece_kind (o : Options) :
    (cityPiece o).map Filt.kind
      = if jsTruthyStr o.city then [FiltKind.city] else [] := by
  cases hc : o.city with
  | none => simp [cityPiece, jsTruthyStr, hc]
  | some s => by_cases hs : s = "" <;> simp [cityPiece, jsTruthyStr, hc, hs, Filt.kind]

theorem ownerPiece_kind (o : Options) :
    (ownerPiece o).map Filt.kind
      = if jsTruthyNum o.owner_id then [FiltKind.owner] else [] := by
  cases hc : o.owner_id with
  | none => simp [ownerPiece, jsTruthyNum, hc]
  | some n => by_cases hn : n = 0 <;> simp [ownerPiece, jsTruthyNum, hc, hn, Filt.kind]

theorem minPricePiece_kind (o : Options) :
    (minPricePiece o).map Filt.kind
      = if jsTruthyNum o.minimum_price_per_night then [FiltKind.minPrice] else [] := by
  cases hc : o.minimum_price_per_night with
  | none => simp [minPricePiece, jsTruthyNum, hc]
  | some n => by_cases hn : n = 0 <;> simp [minPricePiece, jsTruthyNum, hc, hn, Filt.kind]

theorem maxPricePiece_kind (o : Options) :
    (maxPricePiece o).map Filt.kind
      = if jsTruthyNum o.maximum_price_per_night then [FiltKind.maxPrice] else [] := by
  cases hc : o.maximum_price_per_night with
  | none => simp [maxPricePiece, jsTruthyNum, hc]
  | some n => by_cases hn : n = 0 <;> simp [maxPricePiece, jsTruthyNum, hc, hn, Filt.kind]

theorem minRatingPiece_kind (o : Options) :
    (minRatingPiece o).map Filt.kind
      = if jsTruthyNum o.minimum_rating then [FiltKind.minRating] else [] := by
  cases hc : o.minimum_rating with
  | none => simp [minRatingPiece, jsTruthyNum, hc]
  | some n => by_cases hn : n = 0 <;> simp [minRatingPiece, jsTruthyNum, hc, hn, Filt.kind]

theorem presentFilters_kind (o : Options) :
    (presentFilters o).map Filt.kind =
      (if jsTruthyStr o.city then [FiltKind.city] else [])
      ++ (if jsTruthyNum o.owner_id then [FiltKind.owner] else [])
      ++ (if jsTruthyNum o.minimum_price_per_night then [FiltKind.minPrice] else [])
      ++ (if jsTruthyNum o.maximum_price_per_night then [FiltKind.maxPrice] else [])
      ++ (if jsTruthyNum o.minimum_rating then [FiltKind.minRating] else []) := by
  simp [presentFilters, cityPiece_kind, ownerPiece_kind, minPricePiece_kind,
    maxPricePiece_kind, minRatingPiece_kind]

theorem presentFilters_kind_of_pattern (o₁ o₂ : Options)
    (h : truthyPattern o₁ = truthyPattern o₂) :
    (presentFilters o₁).map Filt.kind = (presentFilters o₂).map Filt.kind := by
  have h1 : jsTruthyStr o₁.city = jsTruthyStr o₂.city :=
    congrArg (fun p => p.1) h
  have h2 : jsTruthyNum o₁.owner_id = jsTruthyNum o₂.owner_id :=
    congrArg (fun p => p.2.1) h
  have h3 : jsTruthyNum o₁.minimum_price_per_night
      = jsTruthyNum o₂.minimum_price_per_night :=
    congrArg (fun p => p.2.2.1) h
  have h4 : jsTruthyNum o₁.maximum_price_per_night
      = jsTruthyNum o₂.maximum_price_per_night :=
    congrArg (fun p => p.2.2.2.1) h
  have h5 : jsTruthyNum o₁.minimum_rating = jsTruthyNum o₂.minimum_rating :=
    congrArg (fun p => p.2.2.2.2) h
  rw [presentFilters_kind, presentFilters_kind, h1, h2, h3, h4, h5]

theorem likeMatches_nil_nil : likeMatches [] [] = true := by
  simp [likeMatches]

theorem likeMatches_percent (ps : List Char) (s : List Char) :
    likeMatches ('%' :: ps) s =
      (likeMatches ps s ||
        (match s with
         | [] => false
         | _ :: s' => likeMatches ('%' :: ps) s')) := by
  rw [likeMatches.eq_def]
  rfl

theorem likeMatches_percent_any (s : List Char) : likeMatches ['%'] s = true := by
  induction s with
  | nil => rw [likeMatches_percent, likeMatches_nil_nil]; rfl
  | cons x s ih => rw [likeMatches_percent]; simp [ih]

theorem likeMatches_underscore (ps s : List Char) :
    likeMatches ('_' :: ps) s =
      (match s with
       | [] => false
       | _ :: s' => likeMatches ps s') := by
  rw [likeMatches.eq_def]
  rfl

theorem likeMatches_lit (c : Char) (ps s : List Char) (hc : ¬c = '%') (hu : ¬c = '_') :
    likeMatches (c :: ps) s =
      (match s with
       | [] => false
       | x :: s' => c == x && likeMatches ps s') := by
  rw [likeMatches.eq_def]
  split
  · exact List.noConfusion (by assumption : c :: ps = [])
  · exact List.noConfusion (by assumption : c :: ps = [])
  · rename_i heq
    obtain ⟨h1, -⟩ := List.cons.inj heq
    exact absurd h1 hc
  · rename_i heq
    obtain ⟨h1, -⟩ := List.cons.inj heq
    exact absurd h1 hu
  · rename_i heq
    obtain ⟨rfl, rfl⟩ := List.cons.inj heq
    rfl

theorem likeMatches_self_percent (p : List Char) :
    ∀ r, likeMatches (p ++ ['%']) (p ++ r) = true := by
  induction p with
  | nil => intro r; simpa using likeMatches_percent_any r
  | cons c p ih =>
    intro r
    by_cases hpc : c = '%'
    · subst hpc
      rw [List.cons_append, List.cons_append, likeMatches_percent]
      simp only [Bool.or_eq_true]
      right
      show likeMatches ('%' :: (p ++ ['%'])) (p ++ r) = true
      rw [likeMatches_percent]
      simp [ih r]
    · by_cases hud : c = '_'
      · subst hud
        rw [List.cons_append, List.cons_append, likeMatches_underscore]
        show likeMatches (p ++ ['%']) (p ++ r) = true
        exact ih r
      · rw [List.cons_append, List.cons_append, likeMatches_lit c _ _ hpc hud]
        show (c == c && likeMatches (p ++ ['%']) (p ++ r)) = true
        simp [ih r]

theorem likeMatches_percent_prepend (p : List Char) (pre : List Char) :
    ∀ r, likeMatches ('%' :: p) r = true → likeMatches ('%' :: p) (pre ++ r) = true := by
  induction pre with
  | nil => intro r h; simpa using h
  | cons x pre ih =>
    intro r h
    rw [List.cons_append, likeMatches_percent]
    simp only [Bool.or_eq_true]
    right
    show likeMatches ('%' :: p) (pre ++ r) = true
    exact ih r h

theorem likeMatches_contains (s pre post : List Char) :
    likeMatches ('%' :: (s ++ ['%'])) (pre ++ (s ++ post)) = true := by
  apply likeMatches_percent_prepend (s ++ ['%']) pre
  rw [likeMatches_percent]
  simp only [Bool.or_eq_true]
  left
  exact likeMatches_self_percent s post

theorem wrapped_pattern_data (s : String) :
    ("%" ++ s ++ "%").data = '%' :: (s.data ++ ['%']) := by
  simp [String.data_append]

theorem likeMatches_wrapped (s city pre post : String)
    (hcity : city = pre ++ s ++ post) :
    likeMatches ("%" ++ s ++ "%").data city.data = true := by
  subst hcity
  rw [wrapped_pattern_data]
  have hd : (pre ++ s ++ post).data = pre.data ++ (s.data ++ post.data) := by
    simp [String.data_append]
  rw [hd]
  exact likeMatches_contains s.data pre.data post.data


/-- Claim C1: for every options object, the dynamic filter builder of
`getAllProperties` appends exactly one SQL predicate and exactly one
positional parameter for each present optional filter among city, owner,
minimum price, maximum price and minimum rating; the `i`-th present
predicate carries placeholder `$i`, matching the parameter list's
positions; and the query text joins the present predicates with `AND` in
a `WHERE` clause. -/
theorem claim_C1 (options : Options) (limit : Int) :
    (whereClausesAndParams options).1
        = (List.enumFrom 1 (presentFilters options)).map (fun p => p.2.pred p.1) ∧
    (whereClausesAndParams options).2
        = (presentFilters options).map Filt.param ∧
    (getAllPropertiesQuery options limit).1
        = (if 0 < (presentFilters options).length then
             baseSelect ++ "WHERE "
               ++ String.intercalate " AND " (renderPreds (presentFilters options)) ++ " "
           else baseSelect)
          ++ "\n    GROUP BY properties.id\n    ORDER BY cost_per_night\n    LIMIT $"
          ++ toString ((presentFilters options).length + 1) ++ ";\n  " := by
  have h := whereClausesAndParams_render options
  refine ⟨by rw [h]; rfl, by rw [h]; rfl, ?_⟩
  simp only [getAllPropertiesQuery, h]
  by_cases hl : 0 < (presentFilters options).length <;>
    simp [hl, renderPreds_length, renderParams_length, Nat.pos_iff_ne_zero]

/-- Claim C2: for every options object and limit, `getAllProperties`
appends the limit as the final positional parameter: the parameter list
is the filter parameters followed by the limit, its length is the number
of present filters plus one, its last element is the limit, and the
`LIMIT` placeholder number in the query text equals that length. -/
theorem claim_C2 (options : Options) (limit : Int) :
    (getAllPropertiesQuery options limit).2
        = (presentFilters options).map Filt.param ++ [Value.num limit] ∧
    (getAllPropertiesQuery options limit).2.length
        = (presentFilters options).length + 1 ∧
    (getAllPropertiesQuery options limit).2.getLast? = some (Value.num limit) ∧
    ∃ headPart,
      (getAllPropertiesQuery options limit).1 =
        headPart ++ "\n    GROUP BY properties.id\n    ORDER BY cost_per_night\n    LIMIT $"
          ++ toString ((getAllPropertiesQuery options limit).2.length) ++ ";\n  " := by
  have h := whereClausesAndParams_render options
  simp only [getAllPropertiesQuery, h]
  refine ⟨by simp [renderParams], by simp [renderParams], by simp, ?_⟩
  exact ⟨_, rfl⟩

/-- Claim C3: when the driver query rejects, none of the six exported
functions rejects: each logs the error and resolves to its uniform
sentinel, `null` for the single-object operations and the empty array for
the collection operations. -/
theorem claim_C3 (msg : String) :
    getUserWithEmailSettle (.error msg)
        = (JsVal.null, ["Error in getUserWithEmail: " ++ msg]) ∧
    getUserWithIdSettle (.error msg)
        = (JsVal.null, ["Error in getUserWithId: " ++ msg]) ∧
    addUserSettle (.error msg)
        = (JsVal.null, ["Error in addUser: " ++ msg]) ∧
    addPropertySettle (.error msg)
        = (JsVal.null, ["Error in addProperty: " ++ msg]) ∧
    getAllPropertiesSettle (.error msg)
        = (JsVal.arr [], ["Error in getAllProperties: " ++ msg]) ∧
    getAllReservationsSettle (.error msg)
        = (JsVal.arr [], ["Error in getAllReservations: " ++ msg]) :=
  ⟨rfl, rfl, rfl, rfl, rfl, rfl⟩

/-- Claim C4 counterexample: no single unit conversion is shared by the
price filters, `addProperty`'s `cost_per_night` parameter and the schema:
the column those operations target, `cost_per_night`, is not declared in
the schema's `properties` table at all (its monetary column is
`price_per_night NUMERIC(10, 2)`), so the asserted uniform monetary
representation fails. -/
theorem claim_C4_counterexample : ¬ uniformMoneyRepresentation := by
  rintro ⟨conv, -, -, -, hlook⟩
  exact hlook (by decide)

/-- Claim C4, amended: the code applies the cents conversion (multiply by
100) uniformly across its own monetary operations — the minimum- and
maximum-price filters and `addProperty`'s `cost_per_night` — but the
schema does not share that representation: it declares the monetary
column `price_per_night NUMERIC(10, 2)` (decimal currency units) and no
`cost_per_night` column. -/
theorem claim_C4 :
    (∃ conv : Int → Int, (∀ n, conv n = n * 100) ∧
      (∀ n, Filt.param (.minPrice n) = Value.num (conv n)) ∧
      (∀ n, Filt.param (.maxPrice n) = Value.num (conv n)) ∧
      (∀ p : NewProperty,
        (addPropertyParams p).get? 5 = some (Value.num (conv p.cost_per_night)))) ∧
    List.lookup "price_per_night" propertiesSchemaCols
        = some (ColType.numeric 10 2) ∧
    List.lookup "cost_per_night" propertiesSchemaCols = none :=
  ⟨⟨fun n => n * 100, fun _ => rfl, fun _ => rfl, fun _ => rfl, fun _ => rfl⟩,
   by decide, by decide⟩

/-- Claim C5: under the schema's `ON DELETE CASCADE` clauses, deleting a
user deletes every property owned by that user and every reservation
whose guest is that user or whose property was owned by that user;
deleting a property deletes every reservation referencing it; and in an
integral store, deletion preserves referential integrity — no surviving
property or reservation references a deleted row. -/
theorem claim_C5 (s : Store) (uid pid : Nat) (h : Integrity s) :
    (∀ p ∈ (deleteUser s uid).properties, p.owner_id ≠ uid) ∧
    (∀ r ∈ (deleteUser s uid).reservations,
      r.guest_id ≠ uid ∧
        ∀ p ∈ s.properties, p.id = r.property_id → p.owner_id ≠ uid) ∧
    (∀ r ∈ (deleteProperty s pid).reservations, r.property_id ≠ pid) ∧
    Integrity (deleteUser s uid) ∧ Integrity (deleteProperty s pid) := by
  obtain ⟨hprop, hres⟩ := h
  refine ⟨?_, ?_, ?_, ⟨?_, ?_⟩, ⟨?_, ?_⟩⟩
  · intro p hp
    simp only [deleteUser, List.mem_filter, bne_iff_ne, ne_eq] at hp
    exact hp.2
  · intro r hr
    simp only [deleteUser, List.mem_filter, Bool.and_eq_true, bne_iff_ne,
      List.all_eq_true, Bool.or_eq_true, ne_eq] at hr
    refine ⟨hr.2.1, fun p hp hpid => ?_⟩
    rcases hr.2.2 p hp with hne | hne
    · exact absurd hpid hne
    · exact hne
  · intro r hr
    simp only [deleteProperty, List.mem_filter, bne_iff_ne, ne_eq] at hr
    exact hr.2
  · intro p hp
    simp only [deleteUser, List.mem_filter, Bool.and_eq_true, bne_iff_ne,
      ne_eq] at hp ⊢
    obtain ⟨u, hu, huid⟩ := hprop p hp.1
    exact ⟨u, ⟨hu, by rw [huid]; exact hp.2⟩, huid⟩
  · intro r hr
    simp only [deleteUser, List.mem_filter, Bool.and_eq_true, bne_iff_ne,
      List.all_eq_true, Bool.or_eq_true, ne_eq] at hr ⊢
    have hrs := hr.1
    have hguest := hr.2.1
    have hall := hr.2.2
    obtain ⟨⟨p, hp, hpid⟩, ⟨u, hu, huid⟩⟩ := hres r hrs
    have howner : p.owner_id ≠ uid := by
      rcases hall p hp with hne | hne
      · exact absurd hpid hne
      · exact hne
    exact ⟨⟨p, ⟨hp, howner⟩, hpid⟩, ⟨u, ⟨hu, by rw [huid]; exact hguest⟩, huid⟩⟩
  · intro p hp
    simp only [deleteProperty, List.mem_filter, bne_iff_ne, ne_eq] at hp
    exact hprop p hp.1
  · intro r hr
    simp only [deleteProperty, List.mem_filter, bne_iff_ne, ne_eq] at hr ⊢
    obtain ⟨⟨p, hp, hpid⟩, ⟨u, hu, huid⟩⟩ := hres r hr.1
    exact ⟨⟨p, ⟨hp, by rw [hpid]; exact hr.2⟩, hpid⟩, ⟨u, hu, huid⟩⟩

theorem claim_C5_witness :
    Integrity (deleteUser
      ⟨[⟨1, "alice", "alice@x", "pw1"⟩, ⟨2, "bob", "bob@x", "pw2"⟩],
       [⟨7, "loft", "nice", 1, 100, 0, 1, 1, "Canada", "Vancouver", "Main", "V1A"⟩],
       [⟨3, 10, 12, 7, 2, 50⟩]⟩ 1) :=
  (claim_C5
    ⟨[⟨1, "alice", "alice@x", "pw1"⟩, ⟨2, "bob", "bob@x", "pw2"⟩],
     [⟨7, "loft", "nice", 1, 100, 0, 1, 1, "Canada", "Vancouver", "Main", "V1A"⟩],
     [⟨3, 10, 12, 7, 2, 50⟩]⟩ 1 7
    (by unfold Integrity; exact ⟨by decide, by decide⟩)).2.2.2.1

/-- Claim C6: `addUser` stores the password as plain text: the value
bound to the `password` column's placeholder `$3` is exactly the string
supplied by the caller, with no transformation, and the schema declares
`password` as a plain `VARCHAR(255)` column. -/
theorem claim_C6 (user : NewUser) :
    (addUserQuery user).1 = addUserText ∧
    (addUserQuery user).2
        = [Value.str user.name, Value.str user.email, Value.str user.password] ∧
    (addUserQuery user).2.get? 2 = some (Value.str user.password) ∧
    List.lookup "password" usersSchemaCols = some (ColType.varchar 255) :=
  ⟨rfl, rfl, rfl, by decide⟩

/-- Claim C7: every exported function issues one parameterized statement:
the query text of each fixed-shape function is a constant independent of
its input, the caller-supplied values appear only in the positional
parameter list, and the text of `getAllProperties` depends only on the
truthiness pattern of the options (which filters are present), never on
the filter or limit values themselves. -/
theorem claim_C7 (email : String) (id : Int) (user : NewUser)
    (property : NewProperty) (guest_id limit : Int) (o₁ o₂ : Options)
    (l₁ l₂ : Int) (hpat : truthyPattern o₁ = truthyPattern o₂) :
    (getUserWithEmailQuery email).1 = getUserWithEmailText ∧
    (getUserWithEmailQuery email).2 = [Value.str email] ∧
    (getUserWithIdQuery id).1 = getUserWithIdText ∧
    (getUserWithIdQuery id).2 = [Value.num id] ∧
    (addUserQuery user).1 = addUserText ∧
    (addUserQuery user).2
        = [Value.str user.name, Value.str user.email, Value.str user.password] ∧
    (addPropertyQuery property).1 = addPropertyText ∧
    (addPropertyQuery property).2 = addPropertyParams property ∧
    (getAllReservationsQuery guest_id limit).1 = getAllReservationsText ∧
    (getAllReservationsQuery guest_id limit).2
        = [Value.num guest_id, Value.num limit] ∧
    (getAllPropertiesQuery o₁ l₁).1 = (getAllPropertiesQuery o₂ l₂).1 := by
  refine ⟨rfl, rfl, rfl, rfl, rfl, rfl, rfl, rfl, rfl, rfl, ?_⟩
  have hk := presentFilters_kind_of_pattern o₁ o₂ hpat
  have hp : renderPreds (presentFilters o₁) = renderPreds (presentFilters o₂) :=
    renderPreds_congr _ _ hk
  have hl : (presentFilters o₁).length = (presentFilters o₂).length := by
    have := congrArg List.length hk
    simpa using this
  simp only [getAllPropertiesQuery, whereClausesAndParams_render]
  simp [hp, hl, renderPreds_length, renderParams_length]

theorem claim_C7_witness :
    (getAllPropertiesQuery ⟨some "Vancouver", none, none, none, none⟩ 10).1
      = (getAllPropertiesQuery ⟨some "Toronto", none, none, none, none⟩ 25).1 :=
  (claim_C7 "" 0 ⟨"", "", ""⟩ ⟨0, "", "", "", "", 0, "", "", "", "", "", 0, 0, 0⟩
    0 0 ⟨some "Vancouver", none, none, none, none⟩
    ⟨some "Toronto", none, none, none, none⟩ 10 25
    (by decide)).2.2.2.2.2.2.2.2.2.2

/-- Claim C8: a falsy filter value (absent, empty string, or zero)
contributes no predicate and no parameter — the build cannot distinguish
an options object from its canonicalization that drops falsy fields — and
when every filter is falsy the query text contains no `WHERE` clause at
all and the only parameter is the limit. -/
theorem claim_C8 (options : Options) (limit : Int) :
    whereClausesAndParams options = whereClausesAndParams (canonicalOptions options) ∧
    ((jsTruthyStr options.city = false ∧ jsTruthyNum options.owner_id = false ∧
      jsTruthyNum options.minimum_price_per_night = false ∧
      jsTruthyNum options.maximum_price_per_night = false ∧
      jsTruthyNum options.minimum_rating = false) →
      (getAllPropertiesQuery options limit).1 =
        baseSelect ++ "\n    GROUP BY properties.id\n    ORDER BY cost_per_night\n    LIMIT $"
          ++ toString 1 ++ ";\n  " ∧
      (getAllPropertiesQuery options limit).2 = [Value.num limit]) := by
  constructor
  · rw [whereClausesAndParams_render, whereClausesAndParams_render,
      presentFilters_canonical]
  · rintro ⟨h1, h2, h3, h4, h5⟩
    have hnil := presentFilters_nil_of_falsy options h1 h2 h3 h4 h5
    have h := whereClausesAndParams_render options
    rw [hnil] at h
    simp only [getAllPropertiesQuery, h]
    simp [renderPreds, renderParams]

theorem claim_C8_witness :
    (getAllPropertiesQuery ⟨some "", some 0, some 0, some 0, some 0⟩ 10).1 =
      baseSelect ++ "\n    GROUP BY properties.id\n    ORDER BY cost_per_night\n    LIMIT $"
        ++ toString 1 ++ ";\n  " ∧
    (getAllPropertiesQuery ⟨some "", some 0, some 0, some 0, some 0⟩ 10).2
      = [Value.num 10] :=
  (claim_C8 ⟨some "", some 0, some 0, some 0, some 0⟩ 10).2
    (by refine ⟨by decide, by decide, by decide, by decide, by decide⟩)

/-- Claim C9: when a city filter is present, `getAllProperties` matches by
substring: the city filter is checked first, so its predicate is the first
`whereClauses` entry `city LIKE $1` and its parameter is the first
`queryParams` entry, the caller's string wrapped in `%` wildcards on both
sides — a pattern that, under SQL `LIKE` semantics, is satisfied by every
city containing the given string as a (case-sensitive) substring, not
only by exact matches. -/
theorem claim_C9 (options : Options) (s : String)
    (h : options.city = some s) (hs : s ≠ "") :
    (whereClausesAndParams options).2.head? = some (Value.str ("%" ++ s ++ "%")) ∧
    (whereClausesAndParams options).1.head? = some ("city LIKE $" ++ toString 1) ∧
    (∀ city pre post : String, city = pre ++ s ++ post →
      likeMatches ("%" ++ s ++ "%").data city.data = true) := by
  have hc : cityPiece options = [Filt.city s] := by simp [cityPiece, h, hs]
  rw [whereClausesAndParams_render]
  refine ⟨?_, ?_, fun city pre post hcity => likeMatches_wrapped s city pre post hcity⟩ <;>
    simp [presentFilters, hc, renderParams, renderPreds, List.enumFrom,
      Filt.param, Filt.pred]

theorem claim_C9_witness :
    (whereClausesAndParams ⟨some "Van", none, none, none, none⟩).2.head?
        = some (Value.str ("%" ++ "Van" ++ "%")) ∧
    (whereClausesAndParams ⟨some "Van", none, none, none, none⟩).1.head?
        = some ("city LIKE $" ++ toString 1) ∧
    likeMatches ("%" ++ "Van" ++ "%").data ("Vancouver" : String).data = true := by
  obtain ⟨h1, h2, h3⟩ :=
    claim_C9 ⟨some "Van", none, none, none, none⟩ "Van" rfl (by decide)
  exact ⟨h1, h2, h3 "Vancouver" "" "couver" (by decide)⟩

/-- Claim C10: when the query succeeds with no matching row,
`getUserWithEmail` and `getUserWithId` resolve to `null` — not to
`undefined` and not to an empty collection — because `result.rows[0]`
(`undefined` on the empty row set) is normalized by `|| null`. -/
theorem claim_C10 (rows : List Row) (h : rows = []) :
    (getUserWithEmailSettle (.ok rows)).1 = JsVal.null ∧
    (getUserWithIdSettle (.ok rows)).1 = JsVal.null ∧
    (getUserWithEmailSettle (.ok rows)).1 ≠ JsVal.undef ∧
    (getUserWithEmailSettle (.ok rows)).1 ≠ JsVal.arr [] := by
  subst h
  exact ⟨rfl, rfl, by simp [getUserWithEmailSettle, index0, jsOr],
    by simp [getUserWithEmailSettle, index0, jsOr]⟩

theorem claim_C10_witness :
    (getUserWithEmailSettle (.ok ([] : List Row))).1 = JsVal.null ∧
    (getUserWithIdSettle (.ok ([] : List Row))).1 = JsVal.null ∧
    (getUserWithEmailSettle (.ok ([] : List Row))).1 ≠ JsVal.undef ∧
    (getUserWithEmailSettle (.ok ([] : List Row))).1 ≠ JsVal.arr [] :=
  claim_C10 [] rfl

end LightBnB
